import Mathlib

/-!
Verification of the synthea-omop pipeline sources (`etl_script.py`,
`server.py`, `client.py`) against their natural-language specification.

The Python sources are shallowly embedded: every external operation (a
database call, one R-engine call, the language-model call, a gateway tool
invocation) is a parameter of type `Except String _` — `.error e` models the
operation raising an exception with message `e`.  Python `try/except` blocks
become `match`es on such results; functions whose body is entirely wrapped in
a catch-all `try/except` get a total (non-`Except`) return type, since they
can never propagate an exception.
-/

namespace SyntheaOmop

/-- Outcome of one external operation: success, or a raised exception
carrying an error message. -/
abbrev OpResult := Except String Unit

instance exceptDecEq {ε α : Type} [DecidableEq ε] [DecidableEq α] :
    DecidableEq (Except ε α) := fun a b =>
  match a, b with
  | .ok x, .ok y =>
      if h : x = y then isTrue (congrArg Except.ok h)
      else isFalse (fun hc => h (Except.ok.inj hc))
  | .error e, .error f =>
      if h : e = f then isTrue (congrArg Except.error h)
      else isFalse (fun hc => h (Except.error.inj hc))
  | .ok _, .error _ => isFalse (fun hc => Except.noConfusion hc)
  | .error _, .ok _ => isFalse (fun hc => Except.noConfusion hc)

/-- `pat.isPrefixOf` at some position of `s`: a plain substring test on
character lists. -/
def hasInfix (pat : List Char) : List Char → Bool
  | [] => pat.isEmpty
  | c :: rest => pat.isPrefixOf (c :: rest) || hasInfix pat rest

/-- Case-insensitive literal-substring test, modelling
`grepl(pat, msg, ignore.case = TRUE)` for a pattern with no regex
metacharacters (the patterns in `run_etl_process` are plain words and `|`
alternations, modelled as a list of literal alternatives). -/
def containsCI (msg pat : String) : Bool :=
  hasInfix (pat.data.map Char.toLower) (msg.data.map Char.toLower)

/-- Python's `"\n".join(parts)`-style separator join. -/
def pyJoin (sep : String) : List String → String
  | [] => ""
  | [x] => x
  | x :: rest => x ++ sep ++ pyJoin sep rest

/-- The whitespace class of Python's `str.strip()` (the characters that occur
in this system's strings). -/
def isStripChar (c : Char) : Bool :=
  c = ' ' || c = '\t' || c = '\n' || c = '\r'

/-- Python's `s.strip()`: drop leading and trailing whitespace. -/
def pyStrip (s : String) : String :=
  ⟨((s.data.dropWhile isStripChar).reverse.dropWhile isStripChar).reverse⟩

/-! ## etl_script.py — `OmopPipeline`

### `ensure_schemas_exist` (lines 87–105)

The method connects, loops over `self.required_schemas` issuing a
`SELECT … FROM information_schema.schemata` existence check and a
`CREATE SCHEMA` when absent, then commits.  The whole body sits inside
`try: … except Exception as e: print(...)`. -/

/-- The database environment seen by `ensure_schemas_exist`: the schemas
present before the call, and an exception raised by the connection attempt,
if any. -/
structure EnsureEnv where
  existing : List String
  connectError : Option String
deriving DecidableEq, Repr

/-- `self.required_schemas` (line 51). -/
def requiredSchemas : List String := ["cdm54", "synthea", "results"]

/-- Observable outcome of `ensure_schemas_exist`: committed schema state,
the `CREATE SCHEMA` statements issued in order, and the printed messages. -/
structure EnsureResult where
  schemas : List String
  created : List String
  log : List String
deriving DecidableEq, Repr

/-- One iteration of the provisioning loop (lines 92–99): `SELECT` the
schema name; when `fetchone()` returns nothing, print the notice and issue
`CREATE SCHEMA`.  The accumulator carries (schema state, creates issued,
printed log). -/
def ensureStep (acc : List String × List String × List String) (s : String) :
    List String × List String × List String :=
  if s ∈ acc.1 then acc
  else (acc.1 ++ [s], acc.2.1 ++ [s],
        acc.2.2 ++ ["Schema '" ++ s ++ "' not found. Creating it..."])

/-- The `try`-block body of `ensure_schemas_exist`: raises when the
connection raises, otherwise runs the check-then-create loop and commits. -/
def ensureSchemasBody (required : List String) (env : EnsureEnv) :
    Except String EnsureResult :=
  match env.connectError with
  | some e => .error e
  | none =>
      let r := required.foldl ensureStep (env.existing, [], [])
      .ok { schemas := r.1, created := r.2.1, log := r.2.2 }

/-- `ensure_schemas_exist` (lines 87–105): the surrounding `except Exception`
turns any raised error into a printed message, so the method always returns
normally; on a raise nothing was committed. -/
def ensure_schemas_exist (required : List String) (env : EnsureEnv) : EnsureResult :=
  match ensureSchemasBody required env with
  | .ok r => r
  | .error e =>
      { schemas := env.existing, created := [],
        log := ["Error checking or creating schemas: " ++ e] }

/-! ### `run_etl_process` (lines 107–168)

The method submits one R script.  The script runs four
`ETLSyntheaBuilder` calls unguarded, then three calls each wrapped in
`tryCatch` whose handler re-raises (`stop(e)`) unless the error message
matches that call's `grepl` pattern, in which case it only logs a skip.
The outer Python `try/except` catches a propagated script error and logs
it. -/

/-- Outcomes of the seven `ETLSyntheaBuilder` operations issued by the ETL
R script, in source order. -/
structure EtlEnv where
  createCDMTables : OpResult
  loadVocabFromCsv : OpResult
  createSyntheaTables : OpResult
  loadSyntheaTables : OpResult
  createMapAndRollupTables : OpResult
  createExtraIndices : OpResult
  loadEventTables : OpResult
deriving DecidableEq, Repr

/-- Spec-level stage state machine outcome:
`Pending → Running → {Completed, CompletedWithSkips, Failed}`. -/
inductive StageStatus where
  | completed
  | completedWithSkips
  | failed (msg : String)
deriving DecidableEq, Repr

/-- `tryCatch(op, error = function(e) if (grepl(pats, e$message, ignore.case=TRUE))
message(skip) else stop(e))`: returns whether a skip happened, or re-raises. -/
def tryCatchSkip (pats : List String) (op : OpResult) : Except String Bool :=
  match op with
  | .ok _ => .ok false
  | .error e => if pats.any (fun p => containsCI e p) then .ok true else .error e

/-- The ETL R script (lines 110–164): the first four builder calls are
unguarded, the last three are `tryCatch`-guarded with per-call patterns
(`CreateMapAndRollupTables` and `LoadEventTables`:
"already exists|duplicate key"; `CreateExtraIndices`: "already exists"
only).  Returns the number of skips, or the propagated error. -/
def etlScript (env : EtlEnv) : Except String Nat :=
  match env.createCDMTables with
  | .error e => .error e
  | .ok _ =>
  match env.loadVocabFromCsv with
  | .error e => .error e
  | .ok _ =>
  match env.createSyntheaTables with
  | .error e => .error e
  | .ok _ =>
  match env.loadSyntheaTables with
  | .error e => .error e
  | .ok _ =>
  match tryCatchSkip ["already exists", "duplicate key"] env.createMapAndRollupTables with
  | .error e => .error e
  | .ok s1 =>
  match tryCatchSkip ["already exists"] env.createExtraIndices with
  | .error e => .error e
  | .ok s2 =>
  match tryCatchSkip ["already exists", "duplicate key"] env.loadEventTables with
  | .error e => .error e
  | .ok s3 =>
  .ok ((if s1 then 1 else 0) + (if s2 then 1 else 0) + (if s3 then 1 else 0))

/-- `run_etl_process`: the outer `try/except` logs a propagated script error
(stage `Failed`); a clean run is `Completed`, or `CompletedWithSkips` when at
least one guarded call was skipped. -/
def run_etl_process (env : EtlEnv) : StageStatus :=
  match etlScript env with
  | .error e => .failed e
  | .ok n => if n = 0 then .completed else .completedWithSkips

/-- `OmopPipeline.run_sql_file` (lines 65–85): reads and executes the file's
statements; the catch-all `try/except` prints any failure, so the method
always returns normally. -/
def run_sql_file_method (op : OpResult) : StageStatus :=
  match op with
  | .ok _ => .completed
  | .error e => .failed e

/-- `OmopPipeline.run_achilles` (lines 170–195): builds the Achilles script
and calls `run_r_script` with no `try/except` of its own, so a raised error
propagates to the caller. -/
def run_achilles (op : OpResult) : Except String Unit := op

/-- `OmopPipeline.run_dqd_checks` (lines 197–243): the catch-all
`try/except` logs any failure, so the method always returns normally. -/
def run_dqd_checks (op : OpResult) : StageStatus :=
  match op with
  | .ok _ => .completed
  | .error e => .failed e

/-! ### `run_all` (lines 247–264) -/

/-- The six stages of the fixed pipeline sequence. -/
inductive Stage where
  | ensureSchemas
  | etlLoad
  | resultsSchemaSql
  | achilles
  | conceptCountsSql
  | dqdChecks
deriving DecidableEq, Repr

/-- External-operation outcomes for one `run_all` invocation. -/
structure RunAllEnv where
  ensure : EnsureEnv
  etl : EtlEnv
  sqlSchemaOp : OpResult
  achillesOp : OpResult
  sqlCountsOp : OpResult
  dqdOp : OpResult
deriving DecidableEq, Repr

/-- `run_all`: the six stage calls in source order.  Each call's embedding is
total exactly when the Python method catches its own exceptions; only
`run_achilles` can propagate, which aborts the remainder of `run_all`.
Returns the stages that were started and the propagated exception, if any. -/
def run_all (env : RunAllEnv) : List Stage × Except String Unit :=
  let _ := ensure_schemas_exist requiredSchemas env.ensure
  let _ := run_etl_process env.etl
  let _ := run_sql_file_method env.sqlSchemaOp
  match run_achilles env.achillesOp with
  | .error e =>
      ([Stage.ensureSchemas, Stage.etlLoad, Stage.resultsSchemaSql, Stage.achilles],
       .error e)
  | .ok _ =>
      let _ := run_sql_file_method env.sqlCountsOp
      let _ := run_dqd_checks env.dqdOp
      ([Stage.ensureSchemas, Stage.etlLoad, Stage.resultsSchemaSql, Stage.achilles,
        Stage.conceptCountsSql, Stage.dqdChecks],
       .ok ())

/-! ## server.py — tool endpoints

### `query_database` (lines 51–72)

`pd.read_sql` either yields a data frame (rendered as a list of records,
each record a mapping of column name to value) or raises; the `try/except`
turns a raise into an error payload. -/

/-- A result row: column name to rendered value. -/
abbrev Record := List (String × String)

/-- The `"text"` field of a `query_database` payload item: the rows as a
structured payload, or `{"error": message}`. -/
inductive QueryPayload where
  | rows (records : List Record)
  | errorObj (msg : String)
deriving DecidableEq, Repr

/-- `query_database(sql)`: the underlying `pd.read_sql` outcome is the
parameter; the function itself never raises. -/
def query_database (dbResult : Except String (List Record)) :
    List (String × QueryPayload) :=
  match dbResult with
  | .ok records => [("json", QueryPayload.rows records)]
  | .error e => [("json", QueryPayload.errorObj e)]

/-! ### Background-submit tools (lines 148–213)

Each tool builds a `multiprocessing.Process` and calls `.start()`.  The
embedding distinguishes evaluating the Python expression passed as
`target=`: a bare bound-method reference (`pipeline.run_etl_process`) has no
side effect and yields the method as the worker's target, while a call
expression (`pipeline.run_sql_file(filepath)`, line 169) executes the body
in the server process right there and yields its return value `None` as the
worker's target. -/

/-- Units of pipeline work a tool can hand to a worker. -/
inductive Work where
  | etlProcess
  | sqlFile (filepath : String)
  | achilles
  | dqdChecks
  | runAllWork
deriving DecidableEq, Repr

/-- Observable events inside one tool call, in order, all occurring before
the tool returns its acknowledgment. -/
inductive Event where
  | ran (w : Work)
  | spawned (target : Option Work)
deriving DecidableEq, Repr

/-- What one tool call did before returning: its event sequence and the
acknowledgment text it returns. -/
structure ToolReturn where
  events : List Event
  ack : String
deriving DecidableEq, Repr

/-- Evaluating a bare bound-method reference as the `target=` expression:
no side effect; the value is the method. -/
def evalMethodRef (w : Work) : List Event × Option Work := ([], some w)

/-- Evaluating the call expression `pipeline.run_sql_file(filepath)` as the
`target=` expression: the method body runs now, in the server process, and
the value is its return value `None`. -/
def evalRunSqlFileCall (filepath : String) : List Event × Option Work :=
  ([Event.ran (Work.sqlFile filepath)], none)

/-- `Process(target=...); process.start(); return ack`: the target
expression's own events happen first, then a worker is started with the
expression's value as target (a `None` target is a worker that does
nothing). -/
def submitTool (targetExpr : List Event × Option Work) (ack : String) : ToolReturn :=
  { events := targetExpr.1 ++ [Event.spawned targetExpr.2], ack := ack }

/-- `run_etl` tool (lines 152–159). -/
def run_etl_tool : ToolReturn :=
  submitTool (evalMethodRef Work.etlProcess) "ETL process started in the background..."

/-- `run_sql` tool (`run_sql_file`, lines 166–173): the `target=` expression
is a call, so the SQL file is executed synchronously before the worker is
started. -/
def run_sql_tool (filepath : String) : ToolReturn :=
  submitTool (evalRunSqlFileCall filepath)
    ("SQL file '" ++ filepath ++ "' executed successfully.")

/-- `run_achilles` tool (lines 181–188). -/
def run_achilles_tool : ToolReturn :=
  submitTool (evalMethodRef Work.achilles) "Achilles analysis started in background."

/-- `run_dqd_checks` tool (lines 192–199). -/
def run_dqd_tool : ToolReturn :=
  submitTool (evalMethodRef Work.dqdChecks) "DQD checks started in the background."

/-- `run_all` tool (lines 206–213). -/
def run_all_tool : ToolReturn :=
  submitTool (evalMethodRef Work.runAllWork) "Full pipeline execution started in background."

/-! ### `ensure_schemas` tool (lines 140–145)

`pipeline.ensure_schemas_exist()` catches all of its own exceptions (see
the embedding above, whose return type is total), so the tool's `try` body
always completes and the `except` branch cannot be reached through a
failure inside `ensure_schemas_exist`. -/

/-- The `try/except` wrapper of the `ensure_schemas` tool, generic in the
outcome of the wrapped call. -/
def ensureToolWrap (inner : Except String EnsureResult) : List (String × String) :=
  match inner with
  | .ok _ => [("text", "Schemas ensured successfully.")]
  | .error e => [("text", "Error ensuring schemas: " ++ e)]

/-- `ensure_schemas` tool: the wrapped call is `ensure_schemas_exist`, which
returns normally for every environment. -/
def ensure_schemas_tool (env : EnsureEnv) : List (String × String) :=
  ensureToolWrap (.ok (ensure_schemas_exist requiredSchemas env))

/-! ## client.py — `MCPClient`

### Schema translation (`process_query`, lines 46–61)

A `ToolDescriptor` is an MCP tool entry: name, description and a JSON
`inputSchema` dict with optional `"type"`, `"properties"` (each property an
optional `"type"` and `"description"`) and `"required"` keys.  `dict.get`
with a default is modelled by `Option.getD`. -/

/-- One property of a tool's `inputSchema`. -/
structure PropSchema where
  type? : Option String
  descr? : Option String
deriving DecidableEq, Repr

/-- A tool's `inputSchema` dict. -/
structure InputSchema where
  type? : Option String
  properties : List (String × PropSchema)
  required? : Option (List String)
deriving DecidableEq, Repr

/-- One entry of the live tool catalog returned by `list_tools()`. -/
structure ToolDescriptor where
  name : String
  description : String
  inputSchema : InputSchema
deriving DecidableEq, Repr

/-- A translated parameter: `{"type": v.get("type","string"),
"description": v.get("description","")}`. -/
structure TransParam where
  type : String
  description : String
deriving DecidableEq, Repr

/-- The translated `"parameters"` object. -/
structure TransParameters where
  type : String
  properties : List (String × TransParam)
  required : List String
deriving DecidableEq, Repr

/-- One translated function declaration handed to the model. -/
structure FunctionDecl where
  name : String
  description : String
  parameters : TransParameters
deriving DecidableEq, Repr

/-- The schema-translation loop body (lines 48–60). -/
def translateTool (t : ToolDescriptor) : FunctionDecl :=
  { name := t.name
    description := t.description
    parameters :=
      { type := t.inputSchema.type?.getD "object"
        properties := t.inputSchema.properties.map
          (fun kv => (kv.1, { type := kv.2.type?.getD "string"
                              description := kv.2.descr?.getD "" }))
        required := t.inputSchema.required?.getD [] } }

/-! ### The dispatch loop (`process_query`, lines 64–110) -/

/-- A model-emitted tool call: `part.function_call` with name and (already
structured) arguments.  The `json.loads` branch for string-encoded
arguments is elided: the embedding receives arguments in mapping form. -/
structure FnCall where
  name : String
  args : List (String × String)
deriving DecidableEq, Repr

/-- One content part of a candidate: an optional `function_call` and an
optional `text` attribute (Python truthiness makes `None` and `""`
equivalent to absent in the branch conditions). -/
structure Part where
  function_call : Option FnCall
  text? : Option String
deriving DecidableEq, Repr

/-- `cand.content`: an optional `parts` list and an optional direct `text`. -/
structure Content where
  parts? : Option (List Part)
  text? : Option String
deriving DecidableEq, Repr

/-- One response candidate. -/
structure Candidate where
  content : Content
deriving DecidableEq, Repr

/-- `response.usage_metadata`. -/
structure Usage where
  prompt_token_count : Nat
  candidates_token_count : Nat
deriving DecidableEq, Repr

/-- One `generate_content` response. -/
structure GeminiResponse where
  candidates : List Candidate
  usage_metadata : Usage
deriving DecidableEq, Repr

/-- The execution gateway: `session.call_tool(name, args)` either returns the
text of the first content item of the tool response, or raises. -/
abbrev Gateway := String → List (String × String) → Except String String

/-- The per-part loop (lines 81–96).  A part with a truthy `function_call`
dispatches to the gateway with no `try/except` around the call, so a raise
propagates and aborts the whole loop; on success the call and its printed
lines are recorded (the best-effort `json.loads` re-rendering of the raw
result only reformats the printed line and is kept verbatim here, and
printed output on an aborted path is not tracked).  A part with truthy
`text` appends a fragment.  Returns (text fragments, printed log,
dispatched calls). -/
def processParts (gw : Gateway) :
    List Part → Except String (List String × List String × List FnCall)
  | [] => .ok ([], [], [])
  | p :: rest =>
    match p.function_call with
    | some fc =>
        match gw fc.name fc.args with
        | .error e => .error e
        | .ok raw =>
            match processParts gw rest with
            | .error e => .error e
            | .ok (fs, log, cs) =>
                .ok (fs,
                     ("[Calling tool " ++ fc.name ++ "]") :: ("Results: " ++ raw) :: log,
                     fc :: cs)
    | none =>
        match p.text? with
        | some t =>
            if t = "" then processParts gw rest
            else
              match processParts gw rest with
              | .error e => .error e
              | .ok (fs, log, cs) => .ok (t :: fs, log, cs)
        | none => processParts gw rest

/-- The fallback for a candidate without (truthy) parts (lines 97–101):
`getattr(cand.content, 'text', '')`, appended only when truthy. -/
def fallbackText (c : Candidate) : List String :=
  match c.content.text? with
  | some t => if t = "" then [] else [t]
  | none => []

/-- Handling of one candidate (lines 77–101): Python's `if parts:` treats
both a missing and an empty `parts` list as falsy. -/
def candParts (gw : Gateway) (c : Candidate) :
    Except String (List String × List String × List FnCall) :=
  match c.content.parts? with
  | some ps => if ps = [] then .ok (fallbackText c, [], []) else processParts gw ps
  | none => .ok (fallbackText c, [], [])

/-- The candidate loop of `process_query`. -/
def processCandidates (gw : Gateway) :
    List Candidate → Except String (List String × List String × List FnCall)
  | [] => .ok ([], [], [])
  | c :: rest =>
      match candParts gw c with
      | .error e => .error e
      | .ok (fs, log, cs) =>
          match processCandidates gw rest with
          | .error e => .error e
          | .ok (fs2, log2, cs2) => .ok (fs ++ fs2, log ++ log2, cs ++ cs2)

/-- The value returned by `process_query` on a normal return. -/
structure QueryOutput where
  text : String
  prompt_token_count : Nat
  response_token_count : Nat
deriving DecidableEq, Repr

/-- The model boundary: `generate_content(query, schema)` as a function. -/
abbrev ModelFn := String → List FunctionDecl → GeminiResponse

/-- `process_query` (lines 43–110): translate the catalog, issue the single
`generate_content` request, run the candidate loop, then join-and-trim the
text fragments.  The first component is the list of model requests issued;
the second is the returned output (with the printed tool log and the
dispatched calls) or a propagated exception. -/
def process_query (tools : List ToolDescriptor) (model : ModelFn) (gw : Gateway)
    (q : String) :
    List (String × List FunctionDecl) ×
      Except String (QueryOutput × List String × List FnCall) :=
  let schema := tools.map translateTool
  let response := model q schema
  let um := response.usage_metadata
  ([(q, schema)],
   match processCandidates gw response.candidates with
   | .error e => .error e
   | .ok (fs, log, cs) =>
       .ok ({ text := pyStrip (pyJoin "\n" fs)
              prompt_token_count := um.prompt_token_count
              response_token_count := um.candidates_token_count }, log, cs))

/-- One non-quit turn of `chat_loop` (lines 115–131): try `process_query`;
on success print the answer and the token summary, on an exception print the
error line and continue. -/
def chat_turn (tools : List ToolDescriptor) (model : ModelFn) (gw : Gateway)
    (q : String) : List String :=
  match (process_query tools model gw q).2 with
  | .ok (out, _) =>
      [out.text,
       "[Tokens used: " ++ toString (out.prompt_token_count + out.response_token_count) ++
         " (prompt " ++ toString out.prompt_token_count ++ ", response " ++
         toString out.response_token_count ++ ")]"]
  | .error e => ["Error: " ++ e]

/-! ### Spec-side projections of a response

Used to state what the loop extracts, independently of the gateway. -/

/-- The plain-text fragment a single part contributes: its nonempty text,
when it is not a tool-call part. -/
def partTextFragment (p : Part) : Option String :=
  match p.function_call, p.text? with
  | none, some t => if t = "" then none else some t
  | _, _ => none

/-- The plain-text fragments of one candidate, in emission order. -/
def candFragmentsSpec (c : Candidate) : List String :=
  match c.content.parts? with
  | some ps => if ps = [] then fallbackText c else ps.filterMap partTextFragment
  | none => fallbackText c

/-- The plain-text fragments of a whole response, in emission order. -/
def plainTextFragments (r : GeminiResponse) : List String :=
  r.candidates.flatMap candFragmentsSpec

/-- The tool-call requests one candidate carries (only parts reached by the
loop count: a candidate whose `parts` list is missing or empty contributes
none). -/
def candCallsSpec (c : Candidate) : List FnCall :=
  match c.content.parts? with
  | some ps => if ps = [] then [] else ps.filterMap Part.function_call
  | none => []

/-- The tool-call requests a response carries, in emission order. -/
def responseCalls (r : GeminiResponse) : List FnCall :=
  r.candidates.flatMap candCallsSpec

/-! ## Lemmas about the dispatch loop -/

/-- A successful part-loop run yields exactly the plain-text fragments and
the tool calls of the parts, in order. -/
theorem processParts_ok (gw : Gateway) :
    ∀ (ps : List Part) (fs log cs : _),
      processParts gw ps = .ok (fs, log, cs) →
      fs = ps.filterMap partTextFragment ∧ cs = ps.filterMap Part.function_call := by
  intro ps
  induction ps with
  | nil =>
      intro fs log cs h
      simp [processParts] at h
      simp [h.1, h.2.2]
  | cons p rest ih =>
      intro fs log cs h
      simp only [processParts] at h
      cases hfc : p.function_call with
      | some fc =>
          simp only [hfc] at h
          cases hgw : gw fc.name fc.args with
          | error e => simp only [hgw] at h; exact Except.noConfusion h
          | ok raw =>
              simp only [hgw] at h
              cases hrest : processParts gw rest with
              | error e => simp only [hrest] at h; exact Except.noConfusion h
              | ok triple =>
                  obtain ⟨fs', log', cs'⟩ := triple
                  simp only [hrest, Except.ok.injEq, Prod.mk.injEq] at h
                  obtain ⟨h1, _, h3⟩ := h
                  obtain ⟨ih1, ih2⟩ := ih fs' log' cs' hrest
                  subst h1 h3
                  constructor
                  · simp [List.filterMap_cons, partTextFragment, hfc, ih1]
                  · simp [List.filterMap_cons, hfc, ih2]
      | none =>
          simp only [hfc] at h
          cases ht : p.text? with
          | some t =>
              simp only [ht] at h
              by_cases ht0 : t = ""
              · rw [if_pos ht0] at h
                obtain ⟨ih1, ih2⟩ := ih fs log cs h
                subst ht0
                constructor
                · simp [List.filterMap_cons, partTextFragment, hfc, ht, ih1]
                · simp [List.filterMap_cons, hfc, ih2]
              · rw [if_neg ht0] at h
                cases hrest : processParts gw rest with
                | error e => simp only [hrest] at h; exact Except.noConfusion h
                | ok triple =>
                    obtain ⟨fs', log', cs'⟩ := triple
                    simp only [hrest, Except.ok.injEq, Prod.mk.injEq] at h
                    obtain ⟨h1, _, h3⟩ := h
                    obtain ⟨ih1, ih2⟩ := ih fs' log' cs' hrest
                    subst h1 h3
                    constructor
                    · simp [List.filterMap_cons, partTextFragment, hfc, ht, ht0, ih1]
                    · simp [List.filterMap_cons, hfc, ih2]
          | none =>
              simp only [ht] at h
              obtain ⟨ih1, ih2⟩ := ih fs log cs h
              constructor
              · simp [List.filterMap_cons, partTextFragment, hfc, ht, ih1]
              · simp [List.filterMap_cons, hfc, ih2]

/-- A successful candidate run yields its spec-side fragments and calls. -/
theorem candParts_ok (gw : Gateway) (c : Candidate) (fs log cs : _)
    (h : candParts gw c = .ok (fs, log, cs)) :
    fs = candFragmentsSpec c ∧ cs = candCallsSpec c := by
  unfold candParts at h
  cases hps : c.content.parts? with
  | some ps =>
      simp only [hps] at h
      by_cases hemp : ps = []
      · rw [if_pos hemp] at h
        simp only [Except.ok.injEq, Prod.mk.injEq] at h
        obtain ⟨h1, _, h3⟩ := h
        subst h1 h3
        simp [candFragmentsSpec, candCallsSpec, hps, hemp]
      · rw [if_neg hemp] at h
        obtain ⟨h1, h2⟩ := processParts_ok gw ps fs log cs h
        simp [candFragmentsSpec, candCallsSpec, hps, hemp, h1, h2]
  | none =>
      simp only [hps] at h
      simp only [Except.ok.injEq, Prod.mk.injEq] at h
      obtain ⟨h1, _, h3⟩ := h
      subst h1 h3
      simp [candFragmentsSpec, candCallsSpec, hps]

/-- A successful candidate-loop run yields the concatenation of the
per-candidate spec-side fragments and calls. -/
theorem processCandidates_ok (gw : Gateway) :
    ∀ (candidates : List Candidate) (fs log cs : _),
      processCandidates gw candidates = .ok (fs, log, cs) →
      fs = candidates.flatMap candFragmentsSpec ∧
        cs = candidates.flatMap candCallsSpec := by
  intro candidates
  induction candidates with
  | nil =>
      intro fs log cs h
      simp [processCandidates] at h
      simp [h.1, h.2.2]
  | cons c rest ih =>
      intro fs log cs h
      simp only [processCandidates] at h
      cases hc : candParts gw c with
      | error e => simp only [hc] at h; exact Except.noConfusion h
      | ok triple =>
          obtain ⟨fs1, log1, cs1⟩ := triple
          simp only [hc] at h
          cases hrest : processCandidates gw rest with
          | error e => simp only [hrest] at h; exact Except.noConfusion h
          | ok triple2 =>
              obtain ⟨fs2, log2, cs2⟩ := triple2
              simp only [hrest, Except.ok.injEq, Prod.mk.injEq] at h
              obtain ⟨h1, _, h3⟩ := h
              obtain ⟨hc1, hc2⟩ := candParts_ok gw c fs1 log1 cs1 hc
              obtain ⟨ih1, ih2⟩ := ih fs2 log2 cs2 hrest
              subst h1 h3
              simp [List.flatMap_cons, hc1, hc2, ih1, ih2]

/-- With a gateway that never raises, the part loop cannot abort, and it
dispatches exactly the tool calls of the parts, in order. -/
theorem processParts_total (gw : Gateway) (hgw : ∀ n a, ∃ r, gw n a = .ok r) :
    ∀ ps : List Part, ∃ fs log,
      processParts gw ps = .ok (fs, log, ps.filterMap Part.function_call) := by
  intro ps
  induction ps with
  | nil => exact ⟨[], [], rfl⟩
  | cons p rest ih =>
      obtain ⟨fs, log, hrest⟩ := ih
      cases hfc : p.function_call with
      | some fc =>
          obtain ⟨raw, hraw⟩ := hgw fc.name fc.args
          refine ⟨fs, ("[Calling tool " ++ fc.name ++ "]") :: ("Results: " ++ raw) :: log, ?_⟩
          simp [processParts, hfc, hraw, hrest, List.filterMap_cons]
      | none =>
          cases ht : p.text? with
          | some t =>
              by_cases ht0 : t = ""
              · refine ⟨fs, log, ?_⟩
                simp [processParts, hfc, ht, ht0, hrest, List.filterMap_cons]
              · refine ⟨t :: fs, log, ?_⟩
                simp [processParts, hfc, ht, ht0, hrest, List.filterMap_cons]
          | none =>
              refine ⟨fs, log, ?_⟩
              simp [processParts, hfc, ht, hrest, List.filterMap_cons]

/-- With a gateway that never raises, one candidate is processed without
aborting and dispatches exactly its spec-side calls. -/
theorem candParts_total (gw : Gateway) (hgw : ∀ n a, ∃ r, gw n a = .ok r)
    (c : Candidate) :
    ∃ fs log, candParts gw c = .ok (fs, log, candCallsSpec c) := by
  cases hps : c.content.parts? with
  | some ps =>
      by_cases hemp : ps = []
      · exact ⟨fallbackText c, [], by simp [candParts, candCallsSpec, hps, hemp]⟩
      · obtain ⟨fs, log, hp⟩ := processParts_total gw hgw ps
        exact ⟨fs, log, by simp [candParts, candCallsSpec, hps, hemp, hp]⟩
  | none =>
      exact ⟨fallbackText c, [], by simp [candParts, candCallsSpec, hps]⟩

/-- With a gateway that never raises, the candidate loop succeeds and
dispatches exactly the response's tool calls, in emission order. -/
theorem processCandidates_total (gw : Gateway) (hgw : ∀ n a, ∃ r, gw n a = .ok r) :
    ∀ candidates : List Candidate, ∃ fs log,
      processCandidates gw candidates
        = .ok (fs, log, candidates.flatMap candCallsSpec) := by
  intro candidates
  induction candidates with
  | nil => exact ⟨[], [], rfl⟩
  | cons c rest ih =>
      obtain ⟨fs1, log1, hc⟩ := candParts_total gw hgw c
      obtain ⟨fs2, log2, hrest⟩ := ih
      exact ⟨fs1 ++ fs2, log1 ++ log2,
        by simp [processCandidates, hc, hrest, List.flatMap_cons]⟩

/-- Closed form of the `ensure_schemas_exist` provisioning loop for a
duplicate-free list of required names: the creates issued are exactly the
required names absent from the initial state, appended in order. -/
theorem ensureFoldl :
    ∀ (req st created log : List String), req.Nodup →
      req.foldl ensureStep (st, created, log) =
        (st ++ req.filter (fun s => decide (s ∉ st)),
         created ++ req.filter (fun s => decide (s ∉ st)),
         log ++ (req.filter (fun s => decide (s ∉ st))).map
           (fun s => "Schema '" ++ s ++ "' not found. Creating it..."))
  | [], st, created, log, _ => by simp
  | s :: rest, st, created, log, hnd => by
      obtain ⟨hs, hrest⟩ := List.nodup_cons.mp hnd
      by_cases hmem : s ∈ st
      · have hstep : ensureStep (st, created, log) s = (st, created, log) := by
          simp [ensureStep, hmem]
        rw [List.foldl_cons, hstep, ensureFoldl rest st created log hrest]
        simp [List.filter_cons, hmem]
      · have hstep : ensureStep (st, created, log) s =
            (st ++ [s], created ++ [s],
             log ++ ["Schema '" ++ s ++ "' not found. Creating it..."]) := by
          simp [ensureStep, hmem]
        rw [List.foldl_cons, hstep,
          ensureFoldl rest (st ++ [s]) (created ++ [s])
            (log ++ ["Schema '" ++ s ++ "' not found. Creating it..."]) hrest]
        have hfilter : rest.filter (fun t => decide (t ∉ st ++ [s]))
            = rest.filter (fun t => decide (t ∉ st)) := by
          apply List.filter_congr
          intro t ht
          have hts : t ≠ s := fun h => hs (h ▸ ht)
          simp [List.mem_append, hts]
        rw [hfilter]
        simp [List.filter_cons, hmem]

/-! ## Claims -/

/-- The full six-stage sequence of `run_all`. -/
def allSixStages : List Stage :=
  [Stage.ensureSchemas, Stage.etlLoad, Stage.resultsSchemaSql, Stage.achilles,
   Stage.conceptCountsSql, Stage.dqdChecks]

/-- The stages started when the Achilles stage raises. -/
def stagesUpToAchilles : List Stage :=
  [Stage.ensureSchemas, Stage.etlLoad, Stage.resultsSchemaSql, Stage.achilles]

/-- An ETL environment where every builder operation succeeds. -/
def allOkEtl : EtlEnv :=
  ⟨.ok (), .ok (), .ok (), .ok (), .ok (), .ok (), .ok ()⟩

/-- A `run_all` environment where everything succeeds except the Achilles
statistics pass, which raises "connection refused". -/
def achillesFailEnv : RunAllEnv :=
  { ensure := ⟨["cdm54", "synthea", "results"], none⟩
    etl := allOkEtl
    sqlSchemaOp := .ok ()
    achillesOp := .error "connection refused"
    sqlCountsOp := .ok ()
    dqdOp := .ok () }

/-- C1, counterexample: a fatal failure raised inside the Achilles stats pass
is not isolated to that stage — `run_all` halts with the exception, and the
concept-count SQL and data-quality stages are never executed. -/
theorem claim_C1_counterexample :
    (run_all achillesFailEnv).2 = .error "connection refused" ∧
    Stage.conceptCountsSql ∉ (run_all achillesFailEnv).1 ∧
    Stage.dqdChecks ∉ (run_all achillesFailEnv).1 := by
  decide

/-- C1 (amended): every stage of `run_all` except the Achilles stats pass
catches its own failures, so the outcome depends only on the Achilles
operation: when it does not raise, all six stages execute no matter which
other stages fail; when it raises, `run_all` halts after the Achilles stage
and the last two stages never execute. -/
theorem claim_C1 (env : RunAllEnv) :
    run_all env =
      match env.achillesOp with
      | .ok _ => (allSixStages, Except.ok ())
      | .error e => (stagesUpToAchilles, Except.error e) := by
  cases h : env.achillesOp <;>
    simp [run_all, run_achilles, h, allSixStages, stagesUpToAchilles]

/-- A single-candidate model reply holding the given tool-call part followed
by further parts. -/
def replyWithCall (fc : FnCall) (rest : List Part) (u : Usage) : ModelFn :=
  fun _ _ =>
    { candidates :=
        [{ content :=
            { parts? := some ({ function_call := some fc, text? := none } :: rest)
              text? := none } }]
      usage_metadata := u }

/-- A model reply whose single candidate carries a tool call followed by a
plain-text part. -/
def c2Model : ModelFn :=
  replyWithCall { name := "query_database", args := [("sql", "SELECT 1")] }
    [{ function_call := none, text? := some "I ran the query." }]
    { prompt_token_count := 12, candidates_token_count := 7 }

/-- A gateway whose tool invocation raises. -/
def c2Gateway : Gateway := fun _ _ => .error "connection refused"

/-- C2, counterexample: when invoking a tool call raises, the exception is
not caught inside the part loop and not surfaced as an inline fragment:
`process_query` aborts with the exception, the later plain-text part never
reaches an answer, and no answer or usage is returned; `chat_loop` prints
the error line instead. -/
theorem claim_C2_counterexample :
    plainTextFragments (c2Model "q" []) = ["I ran the query."] ∧
    (process_query [] c2Model c2Gateway "q").2 = .error "connection refused" ∧
    chat_turn [] c2Model c2Gateway "q" = ["Error: connection refused"] := by
  decide

/-- C2 (amended): an exception raised while invoking a tool call propagates
out of `process_query` — the remaining parts are not processed and no answer
or usage is returned for that query — and is caught one level up in
`chat_loop`, which prints an error line and keeps the conversation alive. -/
theorem claim_C2 (tools : List ToolDescriptor) (u : Usage) (gw : Gateway)
    (fc : FnCall) (rest : List Part) (q e : String)
    (h : gw fc.name fc.args = .error e) :
    (process_query tools (replyWithCall fc rest u) gw q).2 = .error e ∧
    chat_turn tools (replyWithCall fc rest u) gw q = ["Error: " ++ e] := by
  have h1 : (process_query tools (replyWithCall fc rest u) gw q).2 = .error e := by
    simp [process_query, processCandidates, candParts, processParts, replyWithCall, h]
  exact ⟨h1, by simp [chat_turn, h1]⟩

/-- C2, witness: a concrete failing invocation. -/
theorem claim_C2_witness :
    (process_query []
        (replyWithCall { name := "run_etl", args := [] } []
          { prompt_token_count := 3, candidates_token_count := 4 })
        c2Gateway "go").2 = .error "connection refused" ∧
    chat_turn []
        (replyWithCall { name := "run_etl", args := [] } []
          { prompt_token_count := 3, candidates_token_count := 4 })
        c2Gateway "go" = ["Error: " ++ "connection refused"] :=
  claim_C2 [] { prompt_token_count := 3, candidates_token_count := 4 } c2Gateway
    { name := "run_etl", args := [] } [] "go" "connection refused" rfl

/-- C3 (code bug): evaluating the `run_sql` tool at a concrete filepath shows
the SQL work is executed synchronously, in the server process, before the
acknowledgment is returned (and the spawned worker has no target at all),
while the other four background tools only spawn a worker carrying the
work. -/
theorem claim_C3_bug :
    run_sql_tool "results_schema.sql" =
      { events := [Event.ran (Work.sqlFile "results_schema.sql"), Event.spawned none]
        ack := "SQL file 'results_schema.sql' executed successfully." } ∧
    run_etl_tool.events = [Event.spawned (some Work.etlProcess)] ∧
    run_achilles_tool.events = [Event.spawned (some Work.achilles)] ∧
    run_dqd_tool.events = [Event.spawned (some Work.dqdChecks)] ∧
    run_all_tool.events = [Event.spawned (some Work.runAllWork)] :=
  ⟨rfl, rfl, rfl, rfl, rfl⟩

/-- Names for the seven ETL builder operations, in script order. -/
inductive EtlOp where
  | cdm
  | vocab
  | syntheaTables
  | loadSynthea
  | mapRollup
  | extraIndices
  | eventTables
deriving DecidableEq, Repr

/-- The ETL environment where exactly the named operation fails with
message `e`. -/
def failOn : EtlOp → String → EtlEnv
  | .cdm, e => { allOkEtl with createCDMTables := .error e }
  | .vocab, e => { allOkEtl with loadVocabFromCsv := .error e }
  | .syntheaTables, e => { allOkEtl with createSyntheaTables := .error e }
  | .loadSynthea, e => { allOkEtl with loadSyntheaTables := .error e }
  | .mapRollup, e => { allOkEtl with createMapAndRollupTables := .error e }
  | .extraIndices, e => { allOkEtl with createExtraIndices := .error e }
  | .eventTables, e => { allOkEtl with loadEventTables := .error e }

/-- The allow-list the source actually attaches to each ETL operation. -/
def opGuard : EtlOp → List String
  | .mapRollup => ["already exists", "duplicate key"]
  | .extraIndices => ["already exists"]
  | .eventTables => ["already exists", "duplicate key"]
  | _ => []

/-- C4, counterexample: a "duplicate key" failure of `CreateExtraIndices`
contains a substring of the claimed allow-list, yet is fatal in the source
(that call's `tryCatch` only forgives "already exists"): the stage is
`Failed`, not `CompletedWithSkips`. -/
theorem claim_C4_counterexample :
    containsCI "duplicate key value violates unique constraint" "duplicate key" = true ∧
    run_etl_process
        (failOn EtlOp.extraIndices "duplicate key value violates unique constraint")
      = StageStatus.failed "duplicate key value violates unique constraint" := by
  decide

/-- C4 (amended): only the last three ETL operations carry allow-lists —
`CreateMapAndRollupTables` and `LoadEventTables` forgive messages containing
"already exists" or "duplicate key" (case-insensitively), while
`CreateExtraIndices` forgives only "already exists"; a forgiven failure is
logged as a skip and the stage completes with `CompletedWithSkips`, and any
other failure — including any failure of the four unguarded operations — is
fatal and the stage is `Failed`. -/
theorem claim_C4 (op : EtlOp) (e : String) :
    run_etl_process (failOn op e) =
      (if (opGuard op).any (fun p => containsCI e p)
       then StageStatus.completedWithSkips
       else StageStatus.failed e) := by
  cases op with
  | cdm => rfl
  | vocab => rfl
  | syntheaTables => rfl
  | loadSynthea => rfl
  | mapRollup =>
      simp only [failOn, allOkEtl, opGuard, run_etl_process, etlScript, tryCatchSkip]
      rcases Bool.eq_false_or_eq_true
          (["already exists", "duplicate key"].any fun p => containsCI e p) with hm | hm <;>
        simp [hm]
  | extraIndices =>
      simp only [failOn, allOkEtl, opGuard, run_etl_process, etlScript, tryCatchSkip]
      rcases Bool.eq_false_or_eq_true
          (["already exists"].any fun p => containsCI e p) with hm | hm <;>
        simp [hm]
  | eventTables =>
      simp only [failOn, allOkEtl, opGuard, run_etl_process, etlScript, tryCatchSkip]
      rcases Bool.eq_false_or_eq_true
          (["already exists", "duplicate key"].any fun p => containsCI e p) with hm | hm <;>
        simp [hm]

/-- C5: schema translation preserves the descriptor's name and description
and the parameter-name list; each parameter keeps its type (defaulting a
missing type to the generic "string") and its description (defaulting to
empty); the required list is passed through unchanged and is empty when the
descriptor has none. -/
theorem claim_C5 (t : ToolDescriptor) :
    (translateTool t).name = t.name ∧
    (translateTool t).description = t.description ∧
    ((translateTool t).parameters.properties.map Prod.fst
      = t.inputSchema.properties.map Prod.fst) ∧
    (∀ k p, (k, p) ∈ t.inputSchema.properties →
      (k, TransParam.mk (p.type?.getD "string") (p.descr?.getD ""))
        ∈ (translateTool t).parameters.properties) ∧
    (translateTool t).parameters.required = t.inputSchema.required?.getD [] := by
  refine ⟨rfl, rfl, ?_, ?_, rfl⟩
  · simp [translateTool]
  · intro k p hkp
    simp only [translateTool, List.mem_map]
    exact ⟨(k, p), hkp, rfl⟩

/-- A descriptor whose single parameter omits its type and whose schema has
no required list. -/
def c5Desc : ToolDescriptor :=
  { name := "plot_query"
    description := "Run a SQL query and save a chart."
    inputSchema :=
      { type? := none
        properties := [("sql", { type? := none, descr? := none })]
        required? := none } }

/-- C5, witness: at a concrete descriptor, the untyped parameter gets the
generic "string" type and the absent required list becomes empty. -/
theorem claim_C5_witness :
    (translateTool c5Desc).name = "plot_query" ∧
    ("sql", TransParam.mk "string" "") ∈ (translateTool c5Desc).parameters.properties ∧
    (translateTool c5Desc).parameters.required = [] := by
  refine ⟨(claim_C5 c5Desc).1, ?_, (claim_C5 c5Desc).2.2.2.2⟩
  exact (claim_C5 c5Desc).2.2.2.1 "sql" { type? := none, descr? := none } (by decide)

/-- A one-entry catalog. -/
def c6Tools : List ToolDescriptor :=
  [{ name := "query_database"
     description := "Run an arbitrary SELECT SQL and return the rows as JSON."
     inputSchema :=
       { type? := some "object"
         properties := [("sql", { type? := some "string", descr? := some "" })]
         required? := some ["sql"] } }]

/-- A tool-call request naming a tool absent from `c6Tools`. -/
def c6Call : FnCall := { name := "no_such_tool", args := [("x", "1")] }

/-- A model reply carrying only the unknown-tool request. -/
def c6Model : ModelFn :=
  replyWithCall c6Call [] { prompt_token_count := 5, candidates_token_count := 2 }

/-- A gateway that records nothing and never raises. -/
def c6Gateway : Gateway := fun _ _ => .ok "gateway reached"

/-- C6, counterexample: the dispatch loop performs no validation — a request
naming a tool absent from the catalog is dispatched to the gateway anyway
(the external call is attempted, and no validation failure is produced). -/
theorem claim_C6_counterexample :
    c6Call.name ∉ c6Tools.map ToolDescriptor.name ∧
    (process_query c6Tools c6Model c6Gateway "q").2.map (fun r => r.2.2)
      = .ok [c6Call] := by
  decide

/-- C6 (amended): the dispatch loop validates nothing before dispatch —
whenever the gateway itself does not raise, every tool-call request in the
response, known to the catalog or not, well-formed or not, is dispatched to
the gateway in emission order; rejecting bad requests is entirely the
gateway's (server's) responsibility. -/
theorem claim_C6 (tools : List ToolDescriptor) (model : ModelFn) (gw : Gateway)
    (q : String) (hgw : ∀ n a, ∃ r, gw n a = .ok r) :
    ∃ out log, (process_query tools model gw q).2
      = .ok (out, log, responseCalls (model q (tools.map translateTool))) := by
  obtain ⟨fs, log, h⟩ :=
    processCandidates_total gw hgw (model q (tools.map translateTool)).candidates
  refine ⟨{ text := pyStrip (pyJoin "\n" fs)
            prompt_token_count :=
              (model q (tools.map translateTool)).usage_metadata.prompt_token_count
            response_token_count :=
              (model q (tools.map translateTool)).usage_metadata.candidates_token_count },
    log, ?_⟩
  simp [process_query, h, responseCalls]

/-- C6, witness: the never-raising gateway receives exactly the unknown-tool
request. -/
theorem claim_C6_witness :
    ∃ out log, (process_query c6Tools c6Model c6Gateway "q").2
      = .ok (out, log, responseCalls (c6Model "q" (c6Tools.map translateTool))) :=
  claim_C6 c6Tools c6Model c6Gateway "q" (fun _ _ => ⟨"gateway reached", rfl⟩)

/-- C7: for a duplicate-free required list and a working connection,
`ensure_schemas_exist` checks each required name and creates exactly the
absent ones, in order, leaving the existing schemas untouched. -/
theorem claim_C7 (required : List String) (env : EnsureEnv)
    (hnd : required.Nodup) (hok : env.connectError = none) :
    (ensure_schemas_exist required env).created
        = required.filter (fun s => decide (s ∉ env.existing)) ∧
    (ensure_schemas_exist required env).schemas
        = env.existing ++ required.filter (fun s => decide (s ∉ env.existing)) := by
  have h := ensureFoldl required env.existing [] [] hnd
  simp [ensure_schemas_exist, ensureSchemasBody, hok, h]

/-- C7, witness: required set {"a","b","c"} with only "a" existing creates
exactly "b" and "c" and leaves "a" in place. -/
theorem claim_C7_witness :
    (ensure_schemas_exist ["a", "b", "c"] ⟨["a"], none⟩).created = ["b", "c"] ∧
    (ensure_schemas_exist ["a", "b", "c"] ⟨["a"], none⟩).schemas = ["a", "b", "c"] := by
  have h := claim_C7 ["a", "b", "c"] ⟨["a"], none⟩ (by decide) rfl
  refine ⟨?_, ?_⟩
  · rw [h.1]; decide
  · rw [h.2]; decide

/-- C8: on a normal return, the answer equals the newline-joined,
whitespace-trimmed concatenation of the response's plain-text fragments in
emission order (so tool results, which only reach the printed log, never
appear in it), the usage is the response's token counts, and exactly one
model round-trip is issued. -/
theorem claim_C8 (tools : List ToolDescriptor) (model : ModelFn) (gw : Gateway)
    (q : String) (out : QueryOutput) (log : List String) (cs : List FnCall)
    (h : (process_query tools model gw q).2 = .ok (out, log, cs)) :
    (process_query tools model gw q).1 = [(q, tools.map translateTool)] ∧
    out.text
      = pyStrip (pyJoin "\n" (plainTextFragments (model q (tools.map translateTool)))) ∧
    out.prompt_token_count
      = (model q (tools.map translateTool)).usage_metadata.prompt_token_count ∧
    out.response_token_count
      = (model q (tools.map translateTool)).usage_metadata.candidates_token_count := by
  simp only [process_query] at h
  cases hpc : processCandidates gw (model q (tools.map translateTool)).candidates with
  | error e => rw [hpc] at h; exact Except.noConfusion h
  | ok triple =>
      obtain ⟨fs, log', cs'⟩ := triple
      rw [hpc] at h
      simp only [Except.ok.injEq, Prod.mk.injEq] at h
      obtain ⟨h1, _, _⟩ := h
      obtain ⟨hf, _⟩ := processCandidates_ok gw _ fs log' cs' hpc
      refine ⟨rfl, ?_, ?_, ?_⟩
      · rw [← h1]; simp [plainTextFragments, hf]
      · rw [← h1]
      · rw [← h1]

/-- A model reply with one tool call and one text part. -/
def c8Model : ModelFn :=
  replyWithCall { name := "query_database", args := [("sql", "SELECT 1")] }
    [{ function_call := none, text? := some "Here are the patients." }]
    { prompt_token_count := 9, candidates_token_count := 4 }

/-- A gateway returning an empty row set. -/
def c8Gateway : Gateway := fun _ _ => .ok "[]"

/-- C8, witness: a query whose reply carries a tool call and a text summary
returns only the summary as the answer. -/
theorem claim_C8_witness :
    (process_query [] c8Model c8Gateway "list").1 = [("list", [])] ∧
    (QueryOutput.mk "Here are the patients." 9 4).text
      = pyStrip (pyJoin "\n" (plainTextFragments (c8Model "list" []))) ∧
    (QueryOutput.mk "Here are the patients." 9 4).prompt_token_count
      = (c8Model "list" []).usage_metadata.prompt_token_count ∧
    (QueryOutput.mk "Here are the patients." 9 4).response_token_count
      = (c8Model "list" []).usage_metadata.candidates_token_count :=
  claim_C8 [] c8Model c8Gateway "list"
    (QueryOutput.mk "Here are the patients." 9 4)
    ["[Calling tool query_database]", "Results: []"]
    [{ name := "query_database", args := [("sql", "SELECT 1")] }]
    (by decide)

/-- C9: `query_database` never raises and always returns a single-element
list whose payload has exactly one shape — the rows on success, an error
object on failure — never a mix. -/
theorem claim_C9 (db : Except String (List Record)) :
    (query_database db).length = 1 ∧
    (∀ recs, db = .ok recs →
      query_database db = [("json", QueryPayload.rows recs)]) ∧
    (∀ e, db = .error e →
      query_database db = [("json", QueryPayload.errorObj e)]) := by
  refine ⟨?_, ?_, ?_⟩
  · cases db <;> rfl
  · intro recs h; subst h; rfl
  · intro e h; subst h; rfl

/-- C9, witness: a successful one-row query yields the structured rows
payload. -/
theorem claim_C9_witness :
    (query_database (.ok [[("person_id", "1")]])).length = 1 ∧
    query_database (.ok [[("person_id", "1")]])
      = [("json", QueryPayload.rows [[("person_id", "1")]])] :=
  ⟨(claim_C9 (.ok [[("person_id", "1")]])).1,
   (claim_C9 (.ok [[("person_id", "1")]])).2.1 [[("person_id", "1")]] rfl⟩

/-- C10: `ensure_schemas_exist` catches every exception internally — a
connection failure only shows up in the printed log, nothing is created and
the state is untouched — so the `ensure_schemas` tool always returns the
success acknowledgment and its error branch is unreachable through failures
inside `ensure_schemas_exist`. -/
theorem claim_C10 (env : EnsureEnv) :
    ensure_schemas_tool env = [("text", "Schemas ensured successfully.")] ∧
    (∀ e, env.connectError = some e →
      (ensure_schemas_exist requiredSchemas env).created = [] ∧
      (ensure_schemas_exist requiredSchemas env).schemas = env.existing ∧
      (ensure_schemas_exist requiredSchemas env).log
        = ["Error checking or creating schemas: " ++ e]) := by
  refine ⟨rfl, ?_⟩
  intro e he
  simp [ensure_schemas_exist, ensureSchemasBody, he]

/-- C10, witness: with a refused connection nothing is checked or created,
yet the tool acknowledges success. -/
theorem claim_C10_witness :
    ensure_schemas_tool ⟨["cdm54"], some "connection refused"⟩
      = [("text", "Schemas ensured successfully.")] ∧
    (ensure_schemas_exist requiredSchemas
      ⟨["cdm54"], some "connection refused"⟩).created = [] :=
  ⟨(claim_C10 ⟨["cdm54"], some "connection refused"⟩).1,
   ((claim_C10 ⟨["cdm54"], some "connection refused"⟩).2 "connection refused" rfl).1⟩

end SyntheaOmop
